import Mathlib

/-!
Verification of the burst2safe list-merging core, burst identifier,
group validator and version gates against their natural-language
specification.

The embedding models annotation-list elements by the two fields the
algorithms inspect: a timestamp and a line number.  Timestamps are
microsecond-precision datetimes in the source, totally ordered; they are
embedded as integers.  `lxml` element copies (`deepcopy`) are value
copies, so lists of `Elem` values model lists of elements faithfully.
Fallible paths (Python exceptions: `ValueError`, `IndexError`) are
modelled with `Option`/`Except` results.
-/

namespace Burst2Safe

/-- An element of a repeating annotation list (one `<foo>` subelement):
its timestamp (the auto-detected time field) and its line number (only
meaningful for line-indexed lists; ignored otherwise). -/
structure Elem where
  time : Int
  line : Int
  deriving DecidableEq, Repr

/-- `ListOfListElements.filter_by_time` (base.py lines 121-142): the
Python loop appends a copy of each element whose timestamp satisfies
`min_anx_bound < azimuth_time < max_anx_bound`, where
`min_anx_bound = anx_bounds[0] - buffer` and
`max_anx_bound = anx_bounds[1] + buffer`.  Both comparisons are strict. -/
def filter_by_time (elements : List Elem) (anxLo anxHi buffer : Int) : List Elem :=
  elements.foldl
    (fun acc e => if anxLo - buffer < e.time ∧ e.time < anxHi + buffer then acc ++ [e] else acc) []

/-- `ListOfListElements.filter_by_line` (base.py lines 94-109): keeps the
elements whose line number satisfies
`line_bounds[0] <= line <= line_bounds[1]` (inclusive on both ends). -/
def filter_by_line (elementList : List Elem) (lo hi : Int) : List Elem :=
  elementList.foldl
    (fun acc e => if lo ≤ e.line ∧ e.line ≤ hi then acc ++ [e] else acc) []

/-- `ListOfListElements.update_line_numbers` (base.py lines 111-119):
subtracts `start_line` from every element's line number. -/
def update_line_numbers (startLine : Int) (elements : List Elem) : List Elem :=
  elements.map (fun e => { e with line := e.line - startLine })

/-- The loop of `ListOfListElements.get_unique_elements` (base.py lines
79-90) over the non-first sources.  `lens` is `self.slc_lengths` aligned
so that its head is `slc_lengths[i]` for the current loop index `i`
(the Python loop reads `self.slc_lengths[i]` with
`i = enumerate(list_of_element_lists[1:])`; list indexing is modelled
with `headD 0`, and every call site passes one length per source).
`Python's `max()` over the empty kept-index list raises `ValueError`,
modelled as `none`. -/
def uniqueLoop (hasLine : Bool) :
    List (List Elem) → List Int → Int → Int → Option (List Elem)
  | [], _, _, _ => some []
  | src :: rest, lens, lastTime, prev =>
    let kept := src.filter (fun e => lastTime < e.time)
    let kept' := if hasLine then kept.map (fun e => { e with line := e.line + prev }) else kept
    let prev' := if hasLine then prev + lens.headD 0 else prev
    match kept with
    | [] => none
    | k :: ks =>
      (uniqueLoop hasLine rest lens.tail (ks.foldl (fun acc e => max acc e.time) k.time) prev').map
        (fun tail => kept' ++ tail)

/-- `ListOfListElements.get_unique_elements` (base.py lines 66-92): the
first source is kept verbatim (`last_time` is the timestamp of its LAST
element, `list_of_element_lists[0][-1]`); each later source keeps only
elements strictly newer than `last_time`, offsets their line numbers by
`previous_line_count` when the list is line-indexed, and `last_time`
becomes the maximum timestamp among the elements just kept.
`previous_line_count` starts at `slc_lengths[0]`.  An empty sources list
or an empty first source raises `IndexError` in Python (`none` here). -/
def get_unique_elements (hasLine : Bool) (sources : List (List Elem)) (slcLengths : List Int) :
    Option (List Elem) :=
  match sources with
  | [] => none
  | first :: rest =>
    match first.getLast? with
    | none => none
    | some lastElem =>
      (uniqueLoop hasLine rest slcLengths lastElem.time
        (if hasLine then slcLengths.headD 0 else 0)).map
        (fun tail => first ++ tail)

/-- `ListOfListElements.get_first_time` (base.py lines 54-64): the
minimum timestamp of a source (Python raises on an empty source; the
pipeline below rejects empty sources before sorting). -/
def get_first_time (src : List Elem) : Int :=
  match src with
  | [] => 0
  | e :: es => es.foldl (fun acc x => min acc x.time) e.time

/-- Stable insertion of one source into a list of sources ordered by
`get_first_time` (the constructor's
`sorted(self.inputs, key=self.get_first_time)`; Python's sort is
stable). -/
def insertByFirstTime (x : List Elem) : List (List Elem) → List (List Elem)
  | [] => [x]
  | y :: ys =>
    if get_first_time x ≤ get_first_time y then x :: y :: ys else y :: insertByFirstTime x ys

/-- Stable sort of the sources by their earliest timestamp (base.py line
51). -/
def sortInputs : List (List Elem) → List (List Elem)
  | [] => []
  | x :: xs => insertByFirstTime x (sortInputs xs)

/-- The dedup step as invoked through the class: sources are first
sorted by earliest timestamp in the constructor, then deduplicated.
Note the code does not permute `slc_lengths` along with the sort. -/
def mergeUnique (hasLine : Bool) (sources : List (List Elem)) (slcLengths : List Int) :
    Option (List Elem) :=
  get_unique_elements hasLine (sortInputs sources) slcLengths

/-- `ListOfListElements.create_filtered_list` (base.py lines 144-174)
together with the constructor checks it relies on: an empty sources list
or a source with no subelements makes the constructor raise; then
deduplicate, filter by time with the given buffer, renumber lines by
`start_line` when the list is line-indexed, optionally filter by line
(an error when the list is not line-indexed), and return the children
together with the `count` attribute set to their number. -/
def create_filtered_list (hasLine : Bool) (sources : List (List Elem)) (startLine : Int)
    (slcLengths : List Int) (anxLo anxHi buffer : Int) (lineBounds : Option (Int × Int)) :
    Option (Nat × List Elem) :=
  if sources.isEmpty ∨ sources.any List.isEmpty then none
  else
    match mergeUnique hasLine sources slcLengths with
    | none => none
    | some uniq =>
      let timeFiltered := filter_by_time uniq anxLo anxHi buffer
      let renumbered := if hasLine then update_line_numbers startLine timeFiltered else timeFiltered
      match lineBounds with
      | none => some (renumbered.length, renumbered)
      | some (lo, hi) =>
        if hasLine then
          let lineFiltered := filter_by_line renumbered lo hi
          some (lineFiltered.length, lineFiltered)
        else none

/-- `Product.create_geolocation_grid` (product.py lines 237-243): merges
the geolocation grid point list (a line-indexed list) through
`merge_lists` with the default 3-second buffer and
`line_bounds = [0, self.total_lines]`. -/
def create_geolocation_grid (sources : List (List Elem)) (startLine : Int)
    (slcLengths : List Int) (anxLo anxHi totalLines : Int) : Option (Nat × List Elem) :=
  create_filtered_list true sources startLine slcLengths anxLo anxHi 3 (some (0, totalLines))

/-- The burst-list post-processing of `Product.create_swath_timing`
(product.py lines 194-197): when the merged burst list holds more
entries than there are bursts in the group, the trailing entry is
removed and the `count` attribute decremented. -/
def trim_burst_list (nBursts : Nat) (merged : Nat × List Elem) : Nat × List Elem :=
  if nBursts < merged.1 then (merged.1 - 1, merged.2.dropLast) else merged

/-- The per-source cumulative line offset demanded by the specification:
the sum of the declared lengths of the sources that precede source `k`
in time order. -/
def cumulativePrior (lens : List Int) (k : Nat) : Int :=
  (lens.take k).foldl (· + ·) 0

/-- The contribution condition of the specification's deduplication
step, phrased from the claim: starting from the latest timestamp `t`
kept so far, every subsequent source must contain at least one element
strictly newer than the running latest-kept timestamp, which advances to
the maximum timestamp among the elements just kept. -/
def allContribute (t : Int) : List (List Elem) → Bool
  | [] => true
  | src :: rest =>
    match src.filter (fun e => t < e.time) with
    | [] => false
    | k :: ks => allContribute (ks.foldl (fun acc e => max acc e.time) k.time) rest

/-- The RFI version gate of `Swath.__init__` (swath.py line 38): the RFI
annotation is assembled exactly when
`major_version >= 3 and minor_version >= 40`. -/
def has_rfi (major minor : Int) : Bool :=
  3 ≤ major && 40 ≤ minor

/-- The specification's reading of the gate: the IPF version is 3.40 or
newer in the usual lexicographic order on (major, minor), including
every later major version. -/
def versionAtLeast340 (major minor : Int) : Bool :=
  3 < major || (major == 3 && 40 ≤ minor)

section MergerLemmas

/-- The append-accumulator loops of `filter_by_time` and
`filter_by_line` compute a `List.filter`. -/
theorem foldl_filter_aux (p : Elem → Prop) [DecidablePred p] (l : List Elem) (acc : List Elem) :
    l.foldl (fun acc e => if p e then acc ++ [e] else acc) acc = acc ++ l.filter (fun e => decide (p e)) := by
  induction l generalizing acc with
  | nil => simp
  | cons x xs ih =>
    by_cases hx : p x <;> simp [List.filter_cons, hx, ih, List.append_assoc]

theorem filter_by_time_eq_filter (elements : List Elem) (anxLo anxHi buffer : Int) :
    filter_by_time elements anxLo anxHi buffer =
      elements.filter (fun e => decide (anxLo - buffer < e.time ∧ e.time < anxHi + buffer)) := by
  simpa using foldl_filter_aux (fun e => anxLo - buffer < e.time ∧ e.time < anxHi + buffer) elements []

theorem filter_by_line_eq_filter (elementList : List Elem) (lo hi : Int) :
    filter_by_line elementList lo hi =
      elementList.filter (fun e => decide (lo ≤ e.line ∧ e.line ≤ hi)) := by
  simpa using foldl_filter_aux (fun e => lo ≤ e.line ∧ e.line ≤ hi) elementList []

end MergerLemmas

/-- C7 counterexample: the claim states that an element whose timestamp
equals exactly `windowStart - buffer` is kept, but `filter_by_time`
compares strictly and drops it (window `[10, 20]`, buffer `3`, element
at time `7 = 10 - 3`). -/
theorem c7_boundary_dropped :
    filter_by_time [⟨7, 0⟩] 10 20 3 = [] := by
  decide

/-- C7 (amended): an element is kept by the List Merger's time filter if
and only if its timestamp lies strictly inside the open interval
`(windowStart - buffer, windowEnd + buffer)`; timestamps equal to either
bound are dropped. -/
theorem c7_time_filter_open_interval (elements : List Elem) (anxLo anxHi buffer : Int)
    (e : Elem) :
    e ∈ filter_by_time elements anxLo anxHi buffer ↔
      e ∈ elements ∧ anxLo - buffer < e.time ∧ e.time < anxHi + buffer := by
  rw [filter_by_time_eq_filter, List.mem_filter]
  simp

/-- C9: the code's RFI gate (`major_version >= 3 and minor_version >= 40`,
swath.py line 38) rejects IPF version 4.10 even though 4.10 is newer
than 3.40, contradicting rfi.py's own documentation ("RFI annotations
only available for IPF version 3.40 onwards"). -/
theorem c9_rfi_gate_skips_4_10 :
    has_rfi 4 10 = false ∧ versionAtLeast340 4 10 = true := by
  decide

/-- C2: with three sources of differing declared lengths
`[10, 20, 30]`, one element each at times `0 < 1 < 2` and source-local
line `0`, and `startLine = 0`, the merged output's third element carries
line `20` (the code adds `slc_lengths[0]` twice), while the claimed
formula `original + cumulative prior-source length - startLine` gives
`10 + 20 = 30`. -/
theorem c2_line_offset_bug :
    create_filtered_list true [[⟨0, 0⟩], [⟨1, 0⟩], [⟨2, 0⟩]] 0 [10, 20, 30]
        (-100) 100 3 none = some (3, [⟨0, 0⟩, ⟨1, 10⟩, ⟨2, 20⟩]) ∧
      cumulativePrior [10, 20, 30] 2 = 30 := by
  decide

section BurstId

/-!
Embedding of burst_id.py.  Python datetimes and timedeltas have
microsecond resolution; all times here are integers in microseconds.
Each `timedelta(seconds=...)` constant is converted at that resolution
(round to nearest microsecond, as `timedelta` does), e.g.
`12 * 24 * 3600 / 175` seconds is `5924571429` microseconds.  The final
real-valued division followed by `np.floor` is modelled exactly with
`Int.fdiv`.
-/

/-- `NOMINAL_ORBITAL_DURATION` (burst_id.py line 16), in microseconds. -/
def NOMINAL_ORBITAL_DURATION : Int := 5924571429

/-- `PREAMBLE_LENGTH_IW` (burst_id.py line 17), in microseconds. -/
def PREAMBLE_LENGTH_IW : Int := 2299849

/-- `PREAMBLE_LENGTH_EW` (burst_id.py line 18), in microseconds. -/
def PREAMBLE_LENGTH_EW : Int := 2299970

/-- `BEAM_CYCLE_TIME_IW` (burst_id.py line 19), in microseconds. -/
def BEAM_CYCLE_TIME_IW : Int := 2758273

/-- `BEAM_CYCLE_TIME_EW` (burst_id.py line 20), in microseconds. -/
def BEAM_CYCLE_TIME_EW : Int := 3038376

/-- The two timing modes recognised by `_get_mode_timing`; any other
subswath prefix raises `InvalidModeNameError`. -/
inductive Mode
  | IW
  | EW
  deriving DecidableEq, Repr

/-- The preamble length selected by `MODE_TIMING`. -/
def modePreamble : Mode → Int
  | .IW => PREAMBLE_LENGTH_IW
  | .EW => PREAMBLE_LENGTH_EW

/-- The beam cycle time selected by `MODE_TIMING`. -/
def modeBeamCycle : Mode → Int
  | .IW => BEAM_CYCLE_TIME_IW
  | .EW => BEAM_CYCLE_TIME_EW

/-- `iw1_start_offsets` (burst_id.py lines 152-156): `[0, -0.832,
-0.832 - 1.078]` seconds in microseconds.  `_calc_start_subsw1` indexes
this with `swath_num - 1` (modelled with `getD 0`). -/
def iwStartOffsets : List Int := [0, -832000, -1910000]

/-- `ew1_start_offsets` (burst_id.py lines 188-194), in microseconds. -/
def ewStartOffsets : List Int := [0, -683000, -1242000, -1854000, -2419000]

/-- `start_iw1_to_mid_iw2 = 0.832 + 1.078 / 2` seconds (burst_id.py
line 161), in microseconds. -/
def startIw1ToMidIw2 : Int := 1371000

/-- `start_ew1_to_mid_ew3 = 0.683 + 0.559 + 0.612 / 2` seconds
(burst_id.py line 199), in microseconds. -/
def startEw1ToMidEw3 : Int := 1548000

/-- `has_anx_crossing` (burst_id.py lines 164-166). -/
def hasAnxCrossing (orbitStart orbitStop : Int) : Bool :=
  orbitStop == orbitStart + 1 || (orbitStop == 1 && orbitStart == 175)

/-- `_calc_esa_burstid` (burst_id.py lines 68-91):
`1 + floor((time_since_anx + (orbit_number_start - 1) * T_orb - T_pre) / T_beam)`.
Note the orbit term always uses the `orbit_number_start` argument. -/
def calcEsaBurstid (timeSinceAnx orbitNumberStart pre beam : Int) : Int :=
  1 + Int.fdiv (timeSinceAnx + (orbitNumberStart - 1) * NOMINAL_ORBITAL_DURATION - pre) beam

/-- `calculate_burstid` (burst_id.py lines 94-209), returning
`(esa_burst_id, orbit_number)`.  The subswath string is modelled by its
mode and trailing swath number.  In both modes `_calc_esa_burstid` is
invoked with `orbit_number_start` (lines 181 and 204). -/
def calculate_burstid (mode : Mode) (swathNum : Nat) (sensing anx orbitStart orbitStop : Int) :
    Int × Int :=
  match mode with
  | .IW =>
    let startIw1 := sensing + iwStartOffsets.getD (swathNum - 1) 0
    let midIw2 := startIw1 + startIw1ToMidIw2
    let timeSinceAnxIw1 := startIw1 - anx
    let timeSinceAnx := midIw2 - anx
    if timeSinceAnxIw1 - NOMINAL_ORBITAL_DURATION < 0 then
      (calcEsaBurstid timeSinceAnx orbitStart PREAMBLE_LENGTH_IW BEAM_CYCLE_TIME_IW, orbitStart)
    else
      let timeSinceAnx' :=
        if hasAnxCrossing orbitStart orbitStop then timeSinceAnx
        else timeSinceAnx - NOMINAL_ORBITAL_DURATION
      (calcEsaBurstid timeSinceAnx' orbitStart PREAMBLE_LENGTH_IW BEAM_CYCLE_TIME_IW, orbitStop)
  | .EW =>
    let startEw1 := sensing + ewStartOffsets.getD (swathNum - 1) 0
    let midEw3 := startEw1 + startEw1ToMidEw3
    (calcEsaBurstid (midEw3 - anx) orbitStart PREAMBLE_LENGTH_EW BEAM_CYCLE_TIME_EW, orbitStart)

/-- The mid-burst time of the reference subswath (mid IW2, mid EW3)
derived from the input sensing time. -/
def midBurstTime (mode : Mode) (swathNum : Nat) (sensing : Int) : Int :=
  match mode with
  | .IW => sensing + iwStartOffsets.getD (swathNum - 1) 0 + startIw1ToMidIw2
  | .EW => sensing + ewStartOffsets.getD (swathNum - 1) 0 + startEw1ToMidEw3

/-- The claim C3 formula, written from the spec's words: the burst ID is
`1 + floor((elapsed - preambleLength) / beamCycleTime)` with
`elapsed = (midBurstTime - ascendingNodeTime) +
(resolvedOrbit - 1) * nominalOrbitalPeriod`, where `resolvedOrbit` is the
orbit number the function itself returns. -/
def burstIdPerClaimC3 (mode : Mode) (swathNum : Nat) (sensing anx orbitStart orbitStop : Int) :
    Int :=
  let resolvedOrbit := (calculate_burstid mode swathNum sensing anx orbitStart orbitStop).2
  1 + Int.fdiv (midBurstTime mode swathNum sensing - anx +
      (resolvedOrbit - 1) * NOMINAL_ORBITAL_DURATION - modePreamble mode) (modeBeamCycle mode)

/-- The amended C3 formula: the elapsed-time term always uses
`orbitNumberStart`, and one extra orbital period is subtracted exactly
in the rolled-over IW case without an ascending-node crossing. -/
def burstIdStartOrbitFormula (mode : Mode) (swathNum : Nat)
    (sensing anx orbitStart orbitStop : Int) : Int :=
  let adj : Int :=
    match mode with
    | .IW =>
      if NOMINAL_ORBITAL_DURATION ≤ sensing + iwStartOffsets.getD (swathNum - 1) 0 - anx ∧
          hasAnxCrossing orbitStart orbitStop = false then
        NOMINAL_ORBITAL_DURATION
      else 0
    | .EW => 0
  1 + Int.fdiv (midBurstTime mode swathNum sensing - anx - adj +
      (orbitStart - 1) * NOMINAL_ORBITAL_DURATION - modePreamble mode) (modeBeamCycle mode)

end BurstId

/-- C3 counterexample: an equator-crossing IW input (`orbitNumberStart =
17`, `orbitNumberStop = 18`, ascending node 6000 seconds before the
burst, beyond one orbital period) resolves to orbit 18, but the returned
burst ID is computed from `orbitNumberStart = 17`; the claim's formula
using the resolved orbit yields a different ID. -/
theorem c3_claim_formula_wrong :
    burstIdPerClaimC3 .IW 1 6000000000 0 17 18 ≠
      (calculate_burstid .IW 1 6000000000 0 17 18).1 := by
  decide

/-- C3 (amended): for every input, the returned burst ID equals
`1 + floor((elapsed - preambleLength) / beamCycleTime)` where
`elapsed = (midBurstTime - ascendingNodeTime) +
(orbitNumberStart - 1) * nominalOrbitalPeriod`, minus one extra orbital
period exactly in the IW rolled-over case without an ascending-node
crossing; the resolved orbit number the function returns is not used in
the elapsed-time term. -/
theorem c3_burst_id_uses_orbit_start (mode : Mode) (swathNum : Nat)
    (sensing anx orbitStart orbitStop : Int) :
    (calculate_burstid mode swathNum sensing anx orbitStart orbitStop).1 =
      burstIdStartOrbitFormula mode swathNum sensing anx orbitStart orbitStop := by
  cases mode with
  | IW =>
    cases hcr : hasAnxCrossing orbitStart orbitStop <;>
      simp only [calculate_burstid, burstIdStartOrbitFormula, calcEsaBurstid, midBurstTime,
        modePreamble, modeBeamCycle, hcr, Bool.false_eq_true, Bool.true_eq_false, if_false,
        if_true, and_true, and_false, eq_self_iff_true, Int.sub_zero, ite_false, ite_true] <;>
      split_ifs <;>
      (try simp only [Int.sub_zero]) <;>
      (first | rfl | omega)
  | EW =>
    simp only [calculate_burstid, burstIdStartOrbitFormula, calcEsaBurstid, midBurstTime,
      modePreamble, modeBeamCycle, Int.sub_zero]

/-- C4: for IW inputs whose time from the ascending node to the first
subswath's start exceeds one nominal orbital period, the resolved orbit
is `orbitNumberStop` and one orbital period is subtracted from the
elapsed time exactly when the crossing condition does not hold; for IW
inputs below the threshold the resolved orbit is `orbitNumberStart`;
for EW inputs the resolved orbit is always `orbitNumberStart`. -/
theorem c4_orbit_resolution (swathNum : Nat) (sensing anx orbitStart orbitStop : Int) :
    (NOMINAL_ORBITAL_DURATION < sensing + iwStartOffsets.getD (swathNum - 1) 0 - anx →
      (calculate_burstid .IW swathNum sensing anx orbitStart orbitStop).2 = orbitStop ∧
        (calculate_burstid .IW swathNum sensing anx orbitStart orbitStop).1 =
          1 + Int.fdiv (midBurstTime .IW swathNum sensing - anx -
              (if hasAnxCrossing orbitStart orbitStop then 0 else NOMINAL_ORBITAL_DURATION) +
              (orbitStart - 1) * NOMINAL_ORBITAL_DURATION - PREAMBLE_LENGTH_IW)
            BEAM_CYCLE_TIME_IW) ∧
    (sensing + iwStartOffsets.getD (swathNum - 1) 0 - anx < NOMINAL_ORBITAL_DURATION →
      (calculate_burstid .IW swathNum sensing anx orbitStart orbitStop).2 = orbitStart) ∧
    (calculate_burstid .EW swathNum sensing anx orbitStart orbitStop).2 = orbitStart := by
  refine ⟨fun h => ?_, fun h => ?_, ?_⟩
  · cases hcr : hasAnxCrossing orbitStart orbitStop <;>
      simp only [calculate_burstid, calcEsaBurstid, midBurstTime, hcr, Bool.false_eq_true,
        if_false, if_true, Int.sub_zero, ite_false, ite_true] <;>
      split_ifs <;>
      omega
  · simp only [calculate_burstid, calcEsaBurstid, midBurstTime]
    split_ifs with h1 <;> first | rfl | omega
  · rfl

/-- C4 witness: concrete inputs exercising all three branches — an IW
input beyond one orbital period resolves to the stop orbit, an IW input
below resolves to the start orbit, and an EW input resolves to the start
orbit. -/
theorem c4_orbit_resolution_witness :
    (calculate_burstid .IW 1 6000000000 0 17 18).2 = 18 ∧
      (calculate_burstid .IW 1 1000000 0 17 17).2 = 17 ∧
      (calculate_burstid .EW 3 1000000 0 42 43).2 = 42 := by
  exact ⟨((c4_orbit_resolution 1 6000000000 0 17 18).1 (by decide)).1,
    (c4_orbit_resolution 1 1000000 0 17 17).2.1 (by decide),
    (c4_orbit_resolution 3 1000000 0 42 43).2.2⟩

section DedupLemmas

/-- Line adjustment applied by the dedup loop to a later source's kept
elements: when the list is line-indexed, each kept element's line number
is shifted by the running line offset. -/
def lineAdjust (hasLine : Bool) (off : Int) (es : List Elem) : List Elem :=
  if hasLine then es.map (fun e => { e with line := e.line + off }) else es

theorem map_time_lineAdjust (hasLine : Bool) (off : Int) (es : List Elem) :
    (lineAdjust hasLine off es).map Elem.time = es.map Elem.time := by
  cases hasLine <;> simp [lineAdjust, Function.comp]

theorem length_lineAdjust (hasLine : Bool) (off : Int) (es : List Elem) :
    (lineAdjust hasLine off es).length = es.length := by
  cases hasLine <;> simp [lineAdjust]

/-- In a source whose timestamps strictly increase, every timestamp is
at most the last element's. -/
theorem sorted_time_le_getLast (A : List Elem) (lastA : Elem)
    (hA : A.Pairwise (fun a b => a.time < b.time)) (h : A.getLast? = some lastA) :
    ∀ a ∈ A, a.time ≤ lastA.time := by
  induction A with
  | nil => cases h
  | cons x xs ih =>
    cases xs with
    | nil =>
      simp only [List.getLast?_singleton, Option.some.injEq] at h
      subst h
      intro a ha
      simp only [List.mem_singleton] at ha
      subst ha
      exact le_refl _
    | cons y ys =>
      rw [List.getLast?_cons_cons] at h
      have hpw := List.pairwise_cons.mp hA
      have hmem : lastA ∈ y :: ys := List.mem_of_getLast?_eq_some h
      intro a ha
      rcases List.mem_cons.mp ha with rfl | ha'
      · exact le_of_lt (hpw.1 lastA hmem)
      · exact ih hpw.2 h a ha'

/-- Splitting a list by the strict-threshold predicate and its negation
accounts for every element. -/
theorem length_filter_lt_add_le (t : Int) (l : List Elem) :
    (l.filter fun e => decide (t < e.time)).length +
      (l.filter fun e => decide (e.time ≤ t)).length = l.length := by
  induction l with
  | nil => simp
  | cons x xs ih =>
    by_cases hx : t < x.time <;>
      simp [List.filter_cons, hx, not_lt.mp, not_lt] at * <;>
      omega

/-- The success of the dedup loop is exactly the contribution condition:
starting from the latest kept timestamp, each remaining source must keep
at least one element. -/
theorem uniqueLoop_isSome (hasLine : Bool) (rest : List (List Elem)) :
    ∀ (lens : List Int) (t prev : Int),
      (uniqueLoop hasLine rest lens t prev).isSome = allContribute t rest := by
  induction rest with
  | nil => intro lens t prev; rfl
  | cons src rest ih =>
    intro lens t prev
    simp only [uniqueLoop, allContribute]
    cases hk : src.filter (fun e => t < e.time) with
    | nil => rfl
    | cons k ks => simp [Option.isSome_map, ih]

end DedupLemmas

/-- C6: the dedup step `get_unique_elements` returns a merged list if
and only if every non-first source (in the time-sorted source order)
keeps at least one element strictly newer than the running
latest-kept timestamp; when some later source is entirely covered by
what was already kept, Python's `max()` over the empty kept set raises
`ValueError` (modelled by `none`) instead of returning a merged list. -/
theorem c6_dedup_requires_contribution (hasLine : Bool) (first : List Elem)
    (rest : List (List Elem)) (lens : List Int) (lastE : Elem)
    (h : first.getLast? = some lastE) :
    (get_unique_elements hasLine (first :: rest) lens).isSome =
      allContribute lastE.time rest := by
  simp only [get_unique_elements, h, Option.isSome_map']
  exact uniqueLoop_isSome hasLine rest lens lastE.time _

/-- C6 witness: a second source entirely contained in the first source's
time range (all its timestamps at or before the first source's last) —
the merge does not complete. -/
theorem c6_dedup_requires_contribution_witness :
    (get_unique_elements false [[⟨0, 0⟩, ⟨10, 0⟩], [⟨5, 0⟩]] []).isSome =
      allContribute (Elem.mk 10 0).time [[⟨5, 0⟩]] := by
  exact c6_dedup_requires_contribution false [⟨0, 0⟩, ⟨10, 0⟩] [[⟨5, 0⟩]] [] ⟨10, 0⟩ (by decide)

section OutputShape

/-- Every successful `create_filtered_list` output pairs a child list
with its own length as the `count` attribute. -/
theorem create_filtered_list_shape (hasLine : Bool) (sources : List (List Elem))
    (startLine : Int) (slcLengths : List Int) (anxLo anxHi buffer : Int)
    (lineBounds : Option (Int × Int)) :
    ∃ o : Option (List Elem),
      create_filtered_list hasLine sources startLine slcLengths anxLo anxHi buffer lineBounds =
        o.map (fun l => (l.length, l)) := by
  unfold create_filtered_list
  split
  · exact ⟨none, rfl⟩
  · cases mergeUnique hasLine sources slcLengths with
    | none => exact ⟨none, rfl⟩
    | some uniq =>
      cases lineBounds with
      | none => exact ⟨some _, rfl⟩
      | some p =>
        cases hasLine with
        | false => exact ⟨none, rfl⟩
        | true => exact ⟨some _, rfl⟩

end OutputShape

/-- C10: every List Merger output carries a `count` attribute equal to
its number of children, and the burst-list post-processing step that
drops a trailing over-buffered burst entry preserves that equality. -/
theorem c10_count_matches_children (hasLine : Bool) (sources : List (List Elem))
    (startLine : Int) (slcLengths : List Int) (anxLo anxHi buffer : Int)
    (lineBounds : Option (Int × Int)) (nBursts c : Nat) (es : List Elem)
    (h : create_filtered_list hasLine sources startLine slcLengths anxLo anxHi buffer lineBounds =
      some (c, es)) :
    c = es.length ∧
      (trim_burst_list nBursts (c, es)).1 = (trim_burst_list nBursts (c, es)).2.length := by
  obtain ⟨o, ho⟩ := create_filtered_list_shape hasLine sources startLine slcLengths anxLo anxHi
    buffer lineBounds
  rw [ho] at h
  cases o with
  | none => cases h
  | some l =>
    simp only [Option.map_some', Option.some.injEq, Prod.mk.injEq] at h
    obtain ⟨hc, hes⟩ := h
    subst hes
    refine ⟨hc.symm, ?_⟩
    unfold trim_burst_list
    split
    · simpa [List.length_dropLast] using by omega
    · exact hc.symm

/-- C10 witness: a single-source merge producing one child with count 1,
trimmed against a zero-burst group. -/
theorem c10_count_matches_children_witness :
    (1 : Nat) = [(⟨0, 0⟩ : Elem)].length ∧
      (trim_burst_list 0 (1, [(⟨0, 0⟩ : Elem)])).1 =
        (trim_burst_list 0 (1, [(⟨0, 0⟩ : Elem)])).2.length := by
  exact c10_count_matches_children false [[⟨0, 0⟩]] 0 [] (-10) 10 3 none 0 1 [⟨0, 0⟩] (by decide)

/-- C8 counterexample: the claim requires every merged geolocation line
number to be strictly below the total output line count, but the line
filter keeps the bound inclusively: a grid point whose renumbered line
equals `totalLines = 100` survives the merge. -/
theorem c8_inclusive_upper_bound :
    (create_geolocation_grid [[⟨5, 100⟩]] 0 [200] 0 10 100).map
        (fun p => p.2.all fun e => decide (e.line < 100)) = some false := by
  decide

/-- C8 (amended): every line number in the merged geolocation grid point
list lies within the closed interval `[0, totalOutputLines]` (the upper
bound is inclusive, not exclusive as claimed). -/
theorem c8_geolocation_line_bounds (sources : List (List Elem)) (startLine : Int)
    (slcLengths : List Int) (anxLo anxHi totalLines : Int) (c : Nat) (es : List Elem)
    (h : create_geolocation_grid sources startLine slcLengths anxLo anxHi totalLines =
      some (c, es)) :
    ∀ e ∈ es, 0 ≤ e.line ∧ e.line ≤ totalLines := by
  unfold create_geolocation_grid create_filtered_list at h
  split at h
  · exact Option.noConfusion h
  · split at h
    · exact Option.noConfusion h
    · simp at h
      obtain ⟨-, hes⟩ := h
      subst hes
      intro e he
      rw [filter_by_line_eq_filter] at he
      have := (List.mem_filter.mp he).2
      simpa using this

/-- C8 witness: a concrete merged grid point at line 100 with
`totalLines = 100` satisfies the closed bounds. -/
theorem c8_geolocation_line_bounds_witness :
    (0 : Int) ≤ (Elem.mk 5 100).line ∧ (Elem.mk 5 100).line ≤ 100 := by
  exact c8_geolocation_line_bounds [[⟨5, 100⟩]] 0 [200] 0 10 100 1 [⟨5, 100⟩] (by decide)
    ⟨5, 100⟩ (by decide)

/-- C1: for two strictly time-sorted sources whose ranges overlap by
exactly one sample (exactly one element of the later source is at or
before the earlier source's last timestamp, and the later source extends
beyond it), the dedup step keeps the first source verbatim, appends from
the second exactly the elements strictly newer than the first source's
latest timestamp (line-shifted when line-indexed), produces no duplicate
timestamp, and has `len(A) + len(B) - 1` elements. -/
theorem c1_dedup_exact_overlap (hasLine : Bool) (A B : List Elem) (lens : List Int)
    (lastA : Elem)
    (hA : A.Pairwise (fun a b => a.time < b.time))
    (hB : B.Pairwise (fun a b => a.time < b.time))
    (hlast : A.getLast? = some lastA)
    (hord : get_first_time A ≤ get_first_time B)
    (hoverlap : (B.filter fun e => decide (e.time ≤ lastA.time)).length = 1)
    (hBlen : 2 ≤ B.length) :
    mergeUnique hasLine [A, B] lens =
        some (A ++ lineAdjust hasLine (lens.headD 0)
          (B.filter fun e => decide (lastA.time < e.time))) ∧
      ((A ++ lineAdjust hasLine (lens.headD 0)
          (B.filter fun e => decide (lastA.time < e.time))).map Elem.time).Nodup ∧
      (A ++ lineAdjust hasLine (lens.headD 0)
          (B.filter fun e => decide (lastA.time < e.time))).length =
        A.length + B.length - 1 := by
  have hsort : sortInputs [A, B] = [A, B] := by
    simp [sortInputs, insertByFirstTime, if_pos hord]
  have hkeptlen : (B.filter fun e => decide (lastA.time < e.time)).length = B.length - 1 := by
    have := length_filter_lt_add_le lastA.time B
    omega
  have hkept_ne : B.filter (fun e => decide (lastA.time < e.time)) ≠ [] := by
    intro hnil
    rw [hnil] at hkeptlen
    simp at hkeptlen
    omega
  have hmain : mergeUnique hasLine [A, B] lens =
      some (A ++ lineAdjust hasLine (lens.headD 0)
        (B.filter fun e => decide (lastA.time < e.time))) := by
    rw [mergeUnique, hsort]
    simp only [get_unique_elements, hlast]
    cases hk : B.filter (fun e => decide (lastA.time < e.time)) with
    | nil => exact absurd hk hkept_ne
    | cons k ks =>
      simp only [uniqueLoop, hk]
      cases hasLine with
      | false => simp [lineAdjust, uniqueLoop, ← hk]
      | true => simp [lineAdjust, uniqueLoop, ← hk]
  refine ⟨hmain, ?_, ?_⟩
  · rw [List.map_append, map_time_lineAdjust, List.nodup_append]
    refine ⟨?_, ?_, ?_⟩
    · exact (List.pairwise_map).mpr (hA.imp fun h => ne_of_lt h)
    · exact (List.pairwise_map).mpr ((hB.filter _).imp fun h => ne_of_lt h)
    · intro x hxA hxB
      obtain ⟨a, haA, rfl⟩ := List.mem_map.mp hxA
      obtain ⟨b, hbB, hba⟩ := List.mem_map.mp hxB
      have h1 : a.time ≤ lastA.time := sorted_time_le_getLast A lastA hA hlast a haA
      have h2 : lastA.time < b.time := by
        have := (List.mem_filter.mp hbB).2
        simpa using this
      omega
  · rw [List.length_append, length_lineAdjust, hkeptlen]
    omega

/-- C1 witness: two line-indexed sources with declared lengths `[7, 9]`
sharing exactly the timestamp 10; the merge keeps the first source
verbatim, appends the strictly newer element of the second with its line
shifted by 7, and has `2 + 2 - 1` elements with distinct timestamps. -/
theorem c1_dedup_exact_overlap_witness :
    mergeUnique true [[⟨0, 0⟩, ⟨10, 1⟩], [⟨10, 5⟩, ⟨20, 6⟩]] [7, 9] =
        some ([(⟨0, 0⟩ : Elem), ⟨10, 1⟩] ++ lineAdjust true ([7, 9].headD 0)
          ([(⟨10, 5⟩ : Elem), ⟨20, 6⟩].filter fun e => decide ((Elem.mk 10 1).time < e.time))) ∧
      (([(⟨0, 0⟩ : Elem), ⟨10, 1⟩] ++ lineAdjust true ([7, 9].headD 0)
          ([(⟨10, 5⟩ : Elem), ⟨20, 6⟩].filter fun e => decide ((Elem.mk 10 1).time < e.time))).map
        Elem.time).Nodup ∧
      ([(⟨0, 0⟩ : Elem), ⟨10, 1⟩] ++ lineAdjust true ([7, 9].headD 0)
          ([(⟨10, 5⟩ : Elem), ⟨20, 6⟩].filter fun e => decide ((Elem.mk 10 1).time < e.time))).length =
        [(⟨0, 0⟩ : Elem), ⟨10, 1⟩].length + [(⟨10, 5⟩ : Elem), ⟨20, 6⟩].length - 1 :=
  c1_dedup_exact_overlap true [⟨0, 0⟩, ⟨10, 1⟩] [⟨10, 5⟩, ⟨20, 6⟩] [7, 9] ⟨10, 1⟩
    (by decide) (by decide) (by decide) (by decide) (by decide) (by decide)

section GroupValidator

/-!
`Safe.check_group_validity` is referenced by its caller
(burst2stack.py line 71) and exercised by tests/test_safe.py, but the
function itself is absent from the source tree (safe.py carries only the
per-swath `check_burst_group_validity` and a TODO for the multi-swath
checks).  The definitions below are therefore modelled from the spec.
-/

/-- One burst descriptor, carrying the identity fields the validator
reads.  All fields are integers (granule identifiers and names are only
compared for equality). -/
structure BurstDescriptor where
  granule : Int
  absoluteOrbit : Int
  swath : Int
  polarization : Int
  burstId : Int
  deriving DecidableEq, Repr

/-- The burst IDs of one swath/polarization subset. -/
def subsetIds (bs : List BurstDescriptor) (s p : Int) : List Int :=
  (bs.filter fun b => b.swath == s && b.polarization == p).map BurstDescriptor.burstId

/-- Ordered insertion of an integer. -/
def insertInt (x : Int) : List Int → List Int
  | [] => [x]
  | y :: ys => if x ≤ y then x :: y :: ys else y :: insertInt x ys

/-- Insertion sort of a list of integers. -/
def sortInts : List Int → List Int
  | [] => []
  | x :: xs => insertInt x (sortInts xs)

/-- The start of a burst-ID run: its minimum (`sorted[0]`). -/
def idsStart (ids : List Int) : Int :=
  match ids with
  | [] => 0
  | x :: xs => xs.foldl min x

/-- The end of a burst-ID run: its maximum (`sorted[-1]`). -/
def idsEnd (ids : List Int) : Int :=
  match ids with
  | [] => 0
  | x :: xs => xs.foldl max x

/-- The integer run `[lo, lo+1, ..., hi]` (Python's
`range(min, max + 1)`). -/
def intRange (lo hi : Int) : List Int :=
  (List.range (hi + 1 - lo).toNat).map (fun i => lo + i)

/-- A burst-ID list is contiguous when, once sorted, it equals
`range(min, max + 1)`. -/
def contiguous (ids : List Int) : Prop :=
  sortInts ids = intRange (idsStart ids) (idsEnd ids)

instance (ids : List Int) : Decidable (contiguous ids) :=
  inferInstanceAs (Decidable (sortInts ids = intRange (idsStart ids) (idsEnd ids)))

/-- Check (a): no duplicate source-granule identifiers. -/
def granulesOk (bs : List BurstDescriptor) : Prop :=
  (bs.map BurstDescriptor.granule).Nodup

instance (bs : List BurstDescriptor) : Decidable (granulesOk bs) :=
  inferInstanceAs (Decidable ((bs.map BurstDescriptor.granule).Nodup))

/-- The swath/polarization pairs present in the descriptor set. -/
def pairsOf (bs : List BurstDescriptor) : List (Int × Int) :=
  (bs.map fun b => (b.swath, b.polarization)).dedup

/-- Check (b): within each swath, for each polarization present, the
burst-ID run is contiguous. -/
def contiguityOk (bs : List BurstDescriptor) : Prop :=
  ∀ sp ∈ pairsOf bs, contiguous (subsetIds bs sp.1 sp.2)

instance (bs : List BurstDescriptor) : Decidable (contiguityOk bs) :=
  inferInstanceAs (Decidable (∀ sp ∈ pairsOf bs, contiguous (subsetIds bs sp.1 sp.2)))

/-- Check (c): every polarization subset of a given swath starts and
ends on the same burst ID as every other polarization subset of that
swath. -/
def polAligned (bs : List BurstDescriptor) : Prop :=
  ∀ b1 ∈ bs, ∀ b2 ∈ bs, b1.swath = b2.swath →
    idsStart (subsetIds bs b1.swath b1.polarization) =
        idsStart (subsetIds bs b2.swath b2.polarization) ∧
      idsEnd (subsetIds bs b1.swath b1.polarization) =
        idsEnd (subsetIds bs b2.swath b2.polarization)

instance (bs : List BurstDescriptor) : Decidable (polAligned bs) :=
  inferInstanceAs (Decidable (∀ b1 ∈ bs, ∀ b2 ∈ bs, b1.swath = b2.swath →
    idsStart (subsetIds bs b1.swath b1.polarization) =
        idsStart (subsetIds bs b2.swath b2.polarization) ∧
      idsEnd (subsetIds bs b1.swath b1.polarization) =
        idsEnd (subsetIds bs b2.swath b2.polarization)))

/-- The reference polarization used for the cross-swath comparison: the
first descriptor's. -/
def refPol (bs : List BurstDescriptor) : Int :=
  match bs with
  | [] => 0
  | b :: _ => b.polarization

/-- The distinct swaths present, in ascending (lexical/physical)
order. -/
def sortedSwaths (bs : List BurstDescriptor) : List Int :=
  sortInts ((bs.map BurstDescriptor.swath).dedup)

/-- Check (d): for every pair of adjacent swaths (consecutive in the
sorted order of the swaths present), using the reference polarization,
the absolute difference between the swaths' start IDs and between their
end IDs is at most 1. -/
def swathOverlapOk (bs : List BurstDescriptor) : Prop :=
  ∀ p ∈ (sortedSwaths bs).zip ((sortedSwaths bs).tail),
    |idsStart (subsetIds bs p.1 (refPol bs)) - idsStart (subsetIds bs p.2 (refPol bs))| ≤ 1 ∧
      |idsEnd (subsetIds bs p.1 (refPol bs)) - idsEnd (subsetIds bs p.2 (refPol bs))| ≤ 1

instance (bs : List BurstDescriptor) : Decidable (swathOverlapOk bs) :=
  inferInstanceAs (Decidable (∀ p ∈ (sortedSwaths bs).zip ((sortedSwaths bs).tail),
    |idsStart (subsetIds bs p.1 (refPol bs)) - idsStart (subsetIds bs p.2 (refPol bs))| ≤ 1 ∧
      |idsEnd (subsetIds bs p.1 (refPol bs)) - idsEnd (subsetIds bs p.2 (refPol bs))| ≤ 1))

/-- Modelled from the spec: `Safe.check_group_validity`, which is
missing from the source tree (its caller burst2stack.py line 71 and the
TODO in safe.py line 117 mark the gap).  Per spec section 4.2 it runs
checks (a) no duplicate granules, (b) per-subset contiguity, (c)
polarization subsets of one swath share start and end burst IDs, (d)
adjacent swaths' start and end IDs differ by at most 1 — in order,
raising on the first violation. -/
def check_group_validity (bs : List BurstDescriptor) : Except String Unit :=
  if ¬ granulesOk bs then .error "Found duplicate granules."
  else if ¬ contiguityOk bs then .error "All bursts must have consecutive burst IDs."
  else if ¬ polAligned bs then
    .error "Polarization groups in swath do not share start and end burst ids."
  else if ¬ swathOverlapOk bs then .error "Products from adjacent swaths do not overlap."
  else .ok ()

end GroupValidator

/-- C5 (spec-modelled): the Group Validator rejects every descriptor set
in which two polarization subsets of one swath do not start and end on
the same burst ID, rejects every set in which some pair of adjacent
swaths has start IDs or end IDs differing by more than 1, and accepts
every set passing all of its checks. -/
theorem c5_cross_subset_validation (bs : List BurstDescriptor) :
    (¬ polAligned bs → check_group_validity bs ≠ .ok ()) ∧
      (¬ swathOverlapOk bs → check_group_validity bs ≠ .ok ()) ∧
      (granulesOk bs → contiguityOk bs → polAligned bs → swathOverlapOk bs →
        check_group_validity bs = .ok ()) := by
  refine ⟨fun hc => ?_, fun hd => ?_, fun ha hb hcp hdp => ?_⟩ <;>
    · unfold check_group_validity
      split_ifs <;> simp_all

/-- C5 witness: a set with two swaths and two polarizations, each subset
running over burst IDs 1-2, passes; a set whose two polarization subsets
of swath 1 cover different burst IDs is rejected. -/
theorem c5_cross_subset_validation_witness :
    check_group_validity
        [⟨1, 9, 1, 1, 1⟩, ⟨2, 9, 1, 1, 2⟩, ⟨3, 9, 1, 2, 1⟩, ⟨4, 9, 1, 2, 2⟩,
          ⟨5, 9, 2, 1, 1⟩, ⟨6, 9, 2, 1, 2⟩, ⟨7, 9, 2, 2, 1⟩, ⟨8, 9, 2, 2, 2⟩] = .ok () ∧
      check_group_validity [⟨1, 9, 1, 1, 1⟩, ⟨2, 9, 1, 2, 2⟩] ≠ .ok () := by
  constructor
  · exact (c5_cross_subset_validation _).2.2 (by decide) (by decide) (by decide) (by decide)
  · exact (c5_cross_subset_validation _).1 (by decide)

end Burst2Safe
